import Mathlib

/-!
# Verification of the Drone-Inspection-Robot flight controller

Shallow embedding of `src/controllers/drone_inspector/drone_inspector.py`:
the capture-trigger scheduler (`begin_side` and the per-tick distance-based
capture check), the angle/frame helper functions (`normalize_angle`,
`decompose_displacement`, `clamp`), the vertical PID channel, the
configuration loader, and the per-tick navigation state machine of `main`.
Theorems settle the spec's claims about these components.
-/

/-! ## Capture-trigger scheduler

Embeds the capture state of `main` (lines 162-170), `begin_side`
(lines 186-198) and the per-tick distance-based capture check
(lines 285-294).  The distances are modelled over `ℚ` so that the
concrete scenarios evaluate by rational arithmetic.  `IMAGES_PER_SIDE = 4`.
-/

namespace Sched

/-- Capture state: `capture_distances`, `images_taken_this_side` and the
global `image_counter` from `main` (lines 166-170). -/
structure State where
  capture_distances : List ℚ
  images_taken_this_side : ℕ
  image_counter : ℕ
  deriving Repr, DecidableEq

/-- Initial capture state (lines 166-170): empty threshold list, both
counters zero. -/
def init : State := ⟨[], 0, 0⟩

/-- Embeds `begin_side` (lines 186-198): reset `images_taken_this_side` to 0 and
recompute `capture_distances = [side_dist*(i+1)/4 for i in range(4)]`.
The global `image_counter` is untouched. -/
def begin_side (side_dist : ℚ) (s : State) : State :=
  { s with
    images_taken_this_side := 0
    capture_distances :=
      (List.range 4).map (fun i => side_dist * (i + 1) / 4) }

/-- The per-tick distance-based capture check (lines 286-294): if fewer
than 4 images were taken this side and `distance_traveled` has reached the
next threshold, increment `image_counter` and `images_taken_this_side`;
otherwise the state is unchanged.  At most one capture fires per call. -/
def on_progress (distance_traveled : ℚ) (s : State) : State :=
  if s.images_taken_this_side < 4 ∧
      distance_traveled ≥ s.capture_distances.getD s.images_taken_this_side 0 then
    { s with
      image_counter := s.image_counter + 1
      images_taken_this_side := s.images_taken_this_side + 1 }
  else s

/-- Whether a call to `on_progress` with distance `d` from state `s` fires
a capture (the guard of the `if` on lines 286-287). -/
def fires (d : ℚ) (s : State) : Prop :=
  s.images_taken_this_side < 4 ∧
    d ≥ s.capture_distances.getD s.images_taken_this_side 0

instance (d : ℚ) (s : State) : Decidable (fires d s) := by
  unfold fires; infer_instance

/-- Run `on_progress` over a list of reported distances. -/
def run (s : State) (ds : List ℚ) : State :=
  ds.foldl (fun s d => on_progress d s) s

/-- The successive values of `image_counter` along a run, starting with
the initial state's value. -/
def counters (s : State) (ds : List ℚ) : List ℕ :=
  (ds.scanl (fun s d => on_progress d s) s).map State.image_counter

end Sched

namespace Sched

/-- C1: `begin_side(L)` sets the thresholds to `[L*1/4, L*2/4, L*3/4, L*4/4]`
and resets the per-side fired count to 0 while preserving the global image
counter; `on_progress` fires a capture exactly when fewer than 4 captures
have fired this side and the distance has reached the next unfired
threshold (consuming that threshold, so each fires at most once per side);
capture sequence numbers are strictly increasing on fires and never reset;
and after `begin_side(20)`, progress reports at
[4.9, 5.0, 5.1, 9.9, 10.0, 14.9, 15.0, 19.9, 20.0] fire exactly 4
captures, at the 5.0, 10.0, 15.0 and 20.0 crossings, with no duplicates. -/
theorem capture_schedule_correct :
    (∀ (L : ℚ) (s : State), begin_side L s =
      ⟨[L * 1 / 4, L * 2 / 4, L * 3 / 4, L * 4 / 4], 0, s.image_counter⟩)
  ∧ (∀ (d : ℚ) (s : State),
      (fires d s → on_progress d s =
        ⟨s.capture_distances, s.images_taken_this_side + 1, s.image_counter + 1⟩)
      ∧ (¬ fires d s → on_progress d s = s))
  ∧ (∀ (d : ℚ) (s : State), s.image_counter ≤ (on_progress d s).image_counter)
  ∧ (∀ (L : ℚ) (s : State), (begin_side L s).image_counter = s.image_counter)
  ∧ counters (begin_side 20 init) [4.9, 5, 5.1, 9.9, 10, 14.9, 15, 19.9, 20]
      = [0, 0, 1, 1, 1, 2, 2, 3, 3, 4] := by
  refine ⟨?_, ?_, ?_, ?_, ?_⟩
  · intro L s
    simp [begin_side, List.range_succ]
    norm_num
  · intro d s
    constructor
    · intro h; unfold fires at h; rw [on_progress, if_pos h]
    · intro h; unfold fires at h; rw [on_progress, if_neg h]
  · intro d s
    rw [on_progress]; split <;> simp
  · intro L s; rfl
  · norm_num [counters, on_progress, begin_side, init, List.range_succ, List.scanl]

/-- C1 witness: after `begin_side(20)` (thresholds `[5,10,15,20]`, count 0,
counter 0), a progress report at 5 fires the first capture. -/
theorem capture_schedule_correct_witness :
    on_progress 5 (begin_side 20 init) =
      ⟨(begin_side 20 init).capture_distances,
        (begin_side 20 init).images_taken_this_side + 1,
        (begin_side 20 init).image_counter + 1⟩ :=
  (capture_schedule_correct.2.1 5 (begin_side 20 init)).1
    (by norm_num [fires, begin_side, init, List.range_succ])

/-- C3 fails on the code: the capture check fires at most one capture per
call, so after `begin_side(20)` a first call with distance 20 fires one
capture (threshold 5) and a second call with the same distance 20 fires
another (threshold 10): the second call with the same distance is not
capture-free. -/
theorem on_progress_second_call_fires :
    (on_progress 20 (on_progress 20 (begin_side 20 init))).image_counter ≠
      (on_progress 20 (begin_side 20 init)).image_counter := by
  norm_num [on_progress, begin_side, init, List.range_succ]

/-- C3 amended: if a call to `on_progress` with distance `d` fires no
capture, then a second call with the same distance `d` fires none either
and leaves the state unchanged (idempotence holds once all thresholds
`≤ d` have been crossed). -/
theorem on_progress_idem_of_no_fire (d : ℚ) (s : State)
    (h : (on_progress d s).image_counter = s.image_counter) :
    on_progress d (on_progress d s) = on_progress d s := by
  by_cases hf : fires d s
  · exfalso
    unfold fires at hf
    rw [on_progress, if_pos hf] at h
    simp at h
  · unfold fires at hf
    have hs : on_progress d s = s := by rw [on_progress, if_neg hf]
    rw [hs]
    exact hs

/-- C3 amended witness: after `begin_side(20)`, a call at distance 4.9
fires nothing, and the repeated call is idempotent. -/
theorem on_progress_idem_of_no_fire_witness :
    (on_progress 4.9 (begin_side 20 init)).image_counter =
        (begin_side 20 init).image_counter
    ∧ on_progress 4.9 (on_progress 4.9 (begin_side 20 init)) =
        on_progress 4.9 (begin_side 20 init) :=
  ⟨by norm_num [on_progress, begin_side, init, List.range_succ],
   on_progress_idem_of_no_fire 4.9 (begin_side 20 init)
     (by norm_num [on_progress, begin_side, init, List.range_succ])⟩

end Sched

/-! ## Angle normalization

Embeds `normalize_angle` (lines 28-34): two `while` loops that subtract or
add `2*pi` until the angle lies between `-pi` and `pi`.  Each loop is a
well-founded recursion on the number of remaining iterations. -/

/-- The first loop of `normalize_angle` (lines 30-31):
`while angle > pi: angle -= 2*pi`. -/
noncomputable def subLoop (angle : ℝ) : ℝ :=
  if angle > Real.pi then subLoop (angle - 2 * Real.pi) else angle
termination_by (⌈(angle - Real.pi) / (2 * Real.pi)⌉).toNat
decreasing_by
  have hpi : (0:ℝ) < 2 * Real.pi := by positivity
  have h1 : (0:ℝ) < (angle - Real.pi) / (2 * Real.pi) := by
    apply div_pos _ hpi
    linarith
  have h2 : (0:ℤ) < ⌈(angle - Real.pi) / (2 * Real.pi)⌉ := Int.ceil_pos.mpr h1
  have h3 : (angle - 2 * Real.pi - Real.pi) / (2 * Real.pi)
      = (angle - Real.pi) / (2 * Real.pi) - 1 := by
    field_simp
    ring
  rw [h3, Int.ceil_sub_one]
  omega

/-- The second loop of `normalize_angle` (lines 32-33):
`while angle < -pi: angle += 2*pi`. -/
noncomputable def addLoop (angle : ℝ) : ℝ :=
  if angle < -Real.pi then addLoop (angle + 2 * Real.pi) else angle
termination_by (⌈(-Real.pi - angle) / (2 * Real.pi)⌉).toNat
decreasing_by
  have hpi : (0:ℝ) < 2 * Real.pi := by positivity
  have h1 : (0:ℝ) < (-Real.pi - angle) / (2 * Real.pi) := by
    apply div_pos _ hpi
    linarith
  have h2 : (0:ℤ) < ⌈(-Real.pi - angle) / (2 * Real.pi)⌉ := Int.ceil_pos.mpr h1
  have h3 : (-Real.pi - (angle + 2 * Real.pi)) / (2 * Real.pi)
      = (-Real.pi - angle) / (2 * Real.pi) - 1 := by
    field_simp
    ring
  rw [h3, Int.ceil_sub_one]
  omega

/-- Embeds `normalize_angle` (lines 28-34): run the subtracting loop, then the
adding loop. -/
noncomputable def normalize_angle (angle : ℝ) : ℝ := addLoop (subLoop angle)

lemma subLoop_le (angle : ℝ) : subLoop angle ≤ Real.pi := by
  induction angle using subLoop.induct with
  | case1 a h ih => rw [subLoop, if_pos h]; exact ih
  | case2 a h => rw [subLoop, if_neg h]; linarith [not_lt.mp h]

lemma addLoop_ge (angle : ℝ) : -Real.pi ≤ addLoop angle := by
  induction angle using addLoop.induct with
  | case1 a h ih => rw [addLoop, if_pos h]; exact ih
  | case2 a h => rw [addLoop, if_neg h]; linarith [not_lt.mp h]

lemma addLoop_le (angle : ℝ) (h : angle ≤ Real.pi) : addLoop angle ≤ Real.pi := by
  induction angle using addLoop.induct with
  | case1 a ha ih =>
    rw [addLoop, if_pos ha]
    apply ih
    have := Real.pi_pos
    linarith
  | case2 a ha => rw [addLoop, if_neg ha]; exact h

lemma normalize_angle_mem (x : ℝ) :
    -Real.pi ≤ normalize_angle x ∧ normalize_angle x ≤ Real.pi :=
  ⟨addLoop_ge _, addLoop_le _ (subLoop_le x)⟩

lemma normalize_angle_eq_self (x : ℝ) (h1 : -Real.pi ≤ x) (h2 : x ≤ Real.pi) :
    normalize_angle x = x := by
  unfold normalize_angle
  rw [subLoop, if_neg (by linarith), addLoop, if_neg (by linarith)]

/-- C4 fails on the code: `normalize_angle` returns values in the closed
interval `[-pi, pi]` (as its own docstring states), not the half-open
interval `(-pi, pi]`: at the concrete input `-pi` it returns `-pi`, which
is not strictly greater than `-pi`. -/
theorem normalize_angle_at_neg_pi :
    normalize_angle (-Real.pi) = -Real.pi
    ∧ ¬ (-Real.pi < normalize_angle (-Real.pi)) := by
  have h : normalize_angle (-Real.pi) = -Real.pi :=
    normalize_angle_eq_self _ le_rfl (by linarith [Real.pi_pos])
  exact ⟨h, by rw [h]; exact lt_irrefl _⟩

/-- C4 amended: for every input `x`,
`normalize_angle (normalize_angle x) = normalize_angle x` (idempotence),
and `normalize_angle x` always lies in the closed interval `[-pi, pi]`. -/
theorem normalize_angle_idempotent_and_range (x : ℝ) :
    normalize_angle (normalize_angle x) = normalize_angle x
    ∧ -Real.pi ≤ normalize_angle x ∧ normalize_angle x ≤ Real.pi := by
  obtain ⟨h1, h2⟩ := normalize_angle_mem x
  exact ⟨normalize_angle_eq_self _ h1 h2, h1, h2⟩

/-! ## Frame transform, clamp and the vertical PID channel -/

/-- Embeds `clamp` (lines 25-26): `max(low, min(value, high))`. -/
noncomputable def clamp (value low high : ℝ) : ℝ := max low (min value high)

/-- Embeds `decompose_displacement` (lines 40-55): project an absolute-frame
displacement `(dx, dy)` onto the body frame at yaw `heading`, returning
`(forward, right)`. -/
noncomputable def decompose_displacement (dx dy heading : ℝ) : ℝ × ℝ :=
  (dx * Real.cos heading + dy * Real.sin heading,
   dx * Real.sin heading - dy * Real.cos heading)

/-- C6: `decompose_displacement` is distance-preserving — for every
displacement `(dx, dy)` and every heading, the forward and lateral
components satisfy `forward^2 + lateral^2 = dx^2 + dy^2` exactly over the
reals (in particular for every heading in `(-pi, pi]`). -/
theorem decompose_displacement_norm (dx dy θ : ℝ) :
    (decompose_displacement dx dy θ).1 ^ 2 + (decompose_displacement dx dy θ).2 ^ 2
      = dx ^ 2 + dy ^ 2 := by
  unfold decompose_displacement
  simp only
  linear_combination (dx ^ 2 + dy ^ 2) * Real.sin_sq_add_cos_sq θ

/-- Constant `K_VERTICAL_P` (line 144). -/
noncomputable def K_VERTICAL_P : ℝ := 3.0
/-- Constant `K_VERTICAL_OFFSET` (line 143). -/
noncomputable def K_VERTICAL_OFFSET : ℝ := 0.6

/-- The stabilizer's vertical channel (lines 357-358):
`vertical_input = K_VERTICAL_P * clamp(target_altitude - altitude +
K_VERTICAL_OFFSET, -1, 1) ** 3`. -/
noncomputable def vertical_input (target_altitude altitude : ℝ) : ℝ :=
  K_VERTICAL_P * (clamp (target_altitude - altitude + K_VERTICAL_OFFSET) (-1.0) 1.0) ^ 3

/-- C7: the vertical channel computes
`K_VERTICAL_P * clamp(target_altitude - altitude + K_VERTICAL_OFFSET, -1, 1)^3`;
as a function of the altitude error it is monotonically increasing; it
saturates (is constant) outside the clamp range (error `>= 0.4` gives
`K_VERTICAL_P`, error `<= -1.6` gives `-K_VERTICAL_P`); and at zero
altitude error it equals exactly `K_VERTICAL_OFFSET^3 * K_VERTICAL_P`. -/
theorem vertical_channel_correct :
    (∀ t a : ℝ, vertical_input t a
        = K_VERTICAL_P * (clamp (t - a + K_VERTICAL_OFFSET) (-1.0) 1.0) ^ 3)
  ∧ (∀ t1 a1 t2 a2 : ℝ, t1 - a1 ≤ t2 - a2 →
        vertical_input t1 a1 ≤ vertical_input t2 a2)
  ∧ (∀ t a : ℝ, 0.4 ≤ t - a → vertical_input t a = K_VERTICAL_P)
  ∧ (∀ t a : ℝ, t - a ≤ -1.6 → vertical_input t a = -K_VERTICAL_P)
  ∧ (∀ a : ℝ, vertical_input a a = K_VERTICAL_OFFSET ^ 3 * K_VERTICAL_P) := by
  refine ⟨fun t a => rfl, ?_, ?_, ?_, ?_⟩
  · intro t1 a1 t2 a2 h
    unfold vertical_input clamp K_VERTICAL_P
    have hc : max (-1.0) (min (t1 - a1 + K_VERTICAL_OFFSET) 1.0)
        ≤ max (-1.0) (min (t2 - a2 + K_VERTICAL_OFFSET) 1.0) := by
      apply max_le_max le_rfl
      apply min_le_min _ le_rfl
      linarith
    set x := max (-1.0) (min (t1 - a1 + K_VERTICAL_OFFSET) 1.0)
    set y := max (-1.0) (min (t2 - a2 + K_VERTICAL_OFFSET) 1.0)
    have hxy : x ^ 3 ≤ y ^ 3 := by
      nlinarith [sq_nonneg (x + y), sq_nonneg (x - y), sq_nonneg x, sq_nonneg y]
    linarith
  · intro t a h
    unfold vertical_input clamp K_VERTICAL_OFFSET
    rw [min_eq_right (by linarith), max_eq_right (by norm_num)]
    norm_num
  · intro t a h
    unfold vertical_input clamp K_VERTICAL_OFFSET
    rw [min_eq_left (by linarith), max_eq_left (by linarith)]
    norm_num
  · intro a
    unfold vertical_input clamp K_VERTICAL_OFFSET K_VERTICAL_P
    norm_num

/-- C7 witness: zero error at altitude 4 gives exactly `0.6^3 * 3`; error 1
saturates to `K_VERTICAL_P`; and monotonicity holds from error 0 to 1. -/
theorem vertical_channel_correct_witness :
    vertical_input 4 4 = K_VERTICAL_OFFSET ^ 3 * K_VERTICAL_P
    ∧ vertical_input 1 0 = K_VERTICAL_P
    ∧ vertical_input 4 4 ≤ vertical_input 1 0 :=
  ⟨vertical_channel_correct.2.2.2.2 4,
   vertical_channel_correct.2.2.1 1 0 (by norm_num),
   vertical_channel_correct.2.1 4 4 1 0 (by norm_num)⟩

/-! ## Configuration and inspection plan -/

/-- The building dimensions read from `config.json` (lines 101-103). -/
structure Config where
  building_length : ℝ
  building_breadth : ℝ
  building_height : ℝ

/-- Embeds `load_config` (lines 78-88): return the parsed configuration, or the
defaults `{length 20, breadth 10, height 8}` when the file is absent
(modelled as `none`). -/
noncomputable def load_config : Option Config → Config
  | some cfg => cfg
  | none => ⟨20.0, 10.0, 8.0⟩

/-- Embeds `target_altitude = building_height / 2.0` (line 104). -/
noncomputable def initial_target_altitude (cfg : Config) : ℝ := cfg.building_height / 2.0

/-- Embeds `side_distances = [building_length, building_breadth, building_length,
building_breadth]` (line 179). -/
def side_distances (cfg : Config) : List ℝ :=
  [cfg.building_length, cfg.building_breadth, cfg.building_length, cfg.building_breadth]

/-- C8: the plan is derived from the three building dimensions exactly as
`target_altitude = height / 2` and ordered side lengths
`[length, breadth, length, breadth]`; with the configuration absent the
defaults `length=20, breadth=10, height=8` apply, so the target altitude is
`4.0` and the sides are `[20, 10, 20, 10]`. -/
theorem plan_from_config :
    (∀ cfg : Config, initial_target_altitude cfg = cfg.building_height / 2
      ∧ side_distances cfg = [cfg.building_length, cfg.building_breadth,
          cfg.building_length, cfg.building_breadth])
  ∧ load_config none = ⟨20, 10, 8⟩
  ∧ initial_target_altitude (load_config none) = 4.0
  ∧ side_distances (load_config none) = [20, 10, 20, 10] := by
  refine ⟨fun cfg => ⟨by norm_num [initial_target_altitude], rfl⟩, ?_, ?_, ?_⟩
  · unfold load_config
    norm_num
  · unfold initial_target_altitude load_config
    norm_num
  · unfold side_distances load_config
    norm_num

/-! ## Navigation state machine

Embeds the state-machine portion of `main` (lines 172-348): the loop
variables mutated by the state machine and capture logic, and one tick of
the `if/elif` chain on `state`.  Sensor readings and simulation time are
the per-tick inputs; the motor-control tail of the loop (lines 353-368)
writes actuators and does not touch this state. -/

/-- Embeds `FlightState` (lines 61-72). -/
inductive FlightState where
  | TAKEOFF
  | STABILIZE
  | SIDE_1
  | TURN_1
  | SIDE_2
  | TURN_2
  | SIDE_3
  | TURN_3
  | SIDE_4
  | LAND
  | DONE
  deriving Repr, DecidableEq

/-- The sensor readings consumed by one tick of the state machine
(lines 218-227): simulation time, altitude, horizontal GPS position and
yaw. -/
structure SensorInput where
  time : ℝ
  altitude : ℝ
  gps : ℝ × ℝ
  yaw : ℝ

/-- The mutable loop variables of `main` owned by the state machine and
the capture logic (lines 104, 166-184). -/
structure DroneState where
  target_altitude : ℝ
  state : FlightState
  state_start_pos : Option (ℝ × ℝ)
  target_yaw : ℝ
  current_side_distance : ℝ
  side_index : ℕ
  accumulated_yaw : ℝ
  stabilize_start_time : Option ℝ
  capture_distances : List ℝ
  images_taken_this_side : ℕ
  image_counter : ℕ

/-- The state at the top of the main loop (lines 104, 166-184, 213):
`state = TAKEOFF`, no side origin, no thresholds, counters zero, and
`accumulated_yaw` calibrated to the initial yaw reading. -/
noncomputable def initState (cfg : Config) (initial_yaw : ℝ) : DroneState :=
  { target_altitude := initial_target_altitude cfg
    state := FlightState.TAKEOFF
    state_start_pos := none
    target_yaw := 0.0
    current_side_distance := 0.0
    side_index := 0
    accumulated_yaw := initial_yaw
    stabilize_start_time := none
    capture_distances := []
    images_taken_this_side := 0
    image_counter := 0 }

/-- Embeds `begin_side` (lines 186-198) acting on the machine state: record the
side origin, the side length, reset the per-side image count, and
recompute the four capture thresholds. -/
noncomputable def DroneState.begin_side (s : DroneState) (side_dist : ℝ)
    (gps_position : ℝ × ℝ) : DroneState :=
  { s with
    state_start_pos := some gps_position
    current_side_distance := side_dist
    images_taken_this_side := 0
    capture_distances := (List.range 4).map (fun i => side_dist * (i + 1) / 4) }

/-- Strafe progress on the current side (lines 267-283): displacement from
`state_start_pos` decomposed at heading `accumulated_yaw`; the traveled
distance is the absolute lateral component. -/
noncomputable def distance_traveled (s : DroneState) (inp : SensorInput) : ℝ :=
  |(decompose_displacement (inp.gps.1 - (s.state_start_pos.getD (0, 0)).1)
      (inp.gps.2 - (s.state_start_pos.getD (0, 0)).2) s.accumulated_yaw).2|

/-- One tick of the state machine (lines 247-348), parameterized by the
`side_distances` list (line 179). -/
noncomputable def step (sides : List ℝ) (s : DroneState) (inp : SensorInput) :
    DroneState :=
  match s.state with
  | FlightState.TAKEOFF =>
      if inp.altitude > s.target_altitude - 0.3 then
        { s with state := FlightState.STABILIZE
                 stabilize_start_time := some inp.time }
      else s
  | FlightState.STABILIZE =>
      if inp.time - s.stabilize_start_time.getD 0 > 3.0 then
        ({ s with state := FlightState.SIDE_1, side_index := 0 }).begin_side
          (sides.getD 0 0) inp.gps
      else s
  | FlightState.SIDE_1 | FlightState.SIDE_2
  | FlightState.SIDE_3 | FlightState.SIDE_4 =>
      let d := distance_traveled s inp
      let s1 :=
        if s.images_taken_this_side < 4 ∧
            d ≥ s.capture_distances.getD s.images_taken_this_side 0 then
          { s with image_counter := s.image_counter + 1
                   images_taken_this_side := s.images_taken_this_side + 1 }
        else s
      if d ≥ s.current_side_distance then
        match s.state with
        | FlightState.SIDE_1 =>
            { s1 with accumulated_yaw := s.accumulated_yaw + Real.pi / 2
                      target_yaw := s.accumulated_yaw + Real.pi / 2
                      state := FlightState.TURN_1 }
        | FlightState.SIDE_2 =>
            { s1 with accumulated_yaw := s.accumulated_yaw + Real.pi / 2
                      target_yaw := s.accumulated_yaw + Real.pi / 2
                      state := FlightState.TURN_2 }
        | FlightState.SIDE_3 =>
            { s1 with accumulated_yaw := s.accumulated_yaw + Real.pi / 2
                      target_yaw := s.accumulated_yaw + Real.pi / 2
                      state := FlightState.TURN_3 }
        | FlightState.SIDE_4 =>
            { s1 with state := FlightState.LAND }
        | _ => s1
      else s1
  | FlightState.TURN_1 | FlightState.TURN_2 | FlightState.TURN_3 =>
      if |normalize_angle (s.target_yaw - inp.yaw)| < 0.05 then
        match s.state with
        | FlightState.TURN_1 =>
            ({ s with side_index := 1, state := FlightState.SIDE_2 }).begin_side
              (sides.getD 1 0) inp.gps
        | FlightState.TURN_2 =>
            ({ s with side_index := 2, state := FlightState.SIDE_3 }).begin_side
              (sides.getD 2 0) inp.gps
        | FlightState.TURN_3 =>
            ({ s with side_index := 3, state := FlightState.SIDE_4 }).begin_side
              (sides.getD 3 0) inp.gps
        | _ => s
      else s
  | FlightState.LAND =>
      let s1 := { s with target_altitude := max 0.0 (s.target_altitude - 0.005) }
      if inp.altitude < 0.3 then { s1 with state := FlightState.DONE } else s1
  | FlightState.DONE => s

/-- The reachable states of the control loop for a given configuration and
initial yaw calibration. -/
inductive Reachable (cfg : Config) (y0 : ℝ) : DroneState → Prop where
  | init : Reachable cfg y0 (initState cfg y0)
  | next : ∀ {s : DroneState} (inp : SensorInput), Reachable cfg y0 s →
      Reachable cfg y0 (step (side_distances cfg) s inp)

/-- Whether a flight state is one of the four `SIDE` states. -/
def isSide : FlightState → Bool
  | FlightState.SIDE_1 | FlightState.SIDE_2
  | FlightState.SIDE_3 | FlightState.SIDE_4 => true
  | _ => false

/-- The successor of each phase in the chain
`TAKEOFF → STABILIZE → SIDE_1 → TURN_1 → SIDE_2 → TURN_2 → SIDE_3 →
TURN_3 → SIDE_4 → LAND → DONE`. -/
def chainSucc : FlightState → Option FlightState
  | FlightState.TAKEOFF => some FlightState.STABILIZE
  | FlightState.STABILIZE => some FlightState.SIDE_1
  | FlightState.SIDE_1 => some FlightState.TURN_1
  | FlightState.TURN_1 => some FlightState.SIDE_2
  | FlightState.SIDE_2 => some FlightState.TURN_2
  | FlightState.TURN_2 => some FlightState.SIDE_3
  | FlightState.SIDE_3 => some FlightState.TURN_3
  | FlightState.TURN_3 => some FlightState.SIDE_4
  | FlightState.SIDE_4 => some FlightState.LAND
  | FlightState.LAND => some FlightState.DONE
  | FlightState.DONE => none

/-- C2: the flight phase follows the chain `TAKEOFF → STABILIZE → SIDE_1 →
TURN_1 → SIDE_2 → TURN_2 → SIDE_3 → TURN_3 → SIDE_4 → LAND → DONE`:
`TAKEOFF` is the initial phase, every tick either keeps the phase or moves
it to its immediate successor in the chain (so no phase is skipped and
none revisited), and `DONE` is terminal (a tick in `DONE` changes
nothing). -/
theorem phase_transitions_follow_chain :
    (∀ (cfg : Config) (y0 : ℝ), (initState cfg y0).state = FlightState.TAKEOFF)
  ∧ (∀ (sides : List ℝ) (s : DroneState) (inp : SensorInput),
      (step sides s inp).state = s.state
      ∨ chainSucc s.state = some (step sides s inp).state)
  ∧ (∀ (sides : List ℝ) (s : DroneState) (inp : SensorInput),
      s.state = FlightState.DONE → step sides s inp = s) := by
  refine ⟨fun _ _ => rfl, ?_, ?_⟩
  · intro sides s inp
    obtain ⟨ta, st, sp, ty, cs, si, ay, st0, cd, it, ic⟩ := s
    cases st <;> simp only [step, chainSucc] <;> (try split_ifs) <;>
      simp [DroneState.begin_side]
  · intro sides s inp h
    obtain ⟨ta, st, sp, ty, cs, si, ay, st0, cd, it, ic⟩ := s
    simp only at h
    subst h
    rfl

/-- C2 witness: a tick taken in the terminal `DONE` phase leaves the state
unchanged. -/
theorem phase_transitions_follow_chain_witness :
    step (side_distances (load_config none))
      { initState (load_config none) 0 with state := FlightState.DONE }
      ⟨2, 4, (0, 0), 0⟩
    = { initState (load_config none) 0 with state := FlightState.DONE } :=
  phase_transitions_follow_chain.2.2 _ _ _ rfl

/-- C9 amended: across every tick, the commanded yaw target
`accumulated_yaw` is monotonically non-decreasing; it changes only by
exactly `pi/2`, and it does so exactly at the completion of sides 1-3
(distance reached on `SIDE_1`, `SIDE_2` or `SIDE_3`); at every other tick
— including the completion of side 4, which transitions directly to
`LAND` — it is unchanged. -/
theorem accumulated_yaw_updates (sides : List ℝ) (s : DroneState)
    (inp : SensorInput) :
    ((step sides s inp).accumulated_yaw = s.accumulated_yaw
      ∨ (step sides s inp).accumulated_yaw = s.accumulated_yaw + Real.pi / 2)
    ∧ s.accumulated_yaw ≤ (step sides s inp).accumulated_yaw
    ∧ ((step sides s inp).accumulated_yaw = s.accumulated_yaw + Real.pi / 2
        ↔ ((s.state = FlightState.SIDE_1 ∨ s.state = FlightState.SIDE_2
            ∨ s.state = FlightState.SIDE_3)
          ∧ distance_traveled s inp ≥ s.current_side_distance)) := by
  have hpi : (0:ℝ) < Real.pi := Real.pi_pos
  obtain ⟨ta, st, sp, ty, cs, si, ay, st0, cd, it, ic⟩ := s
  cases st <;> simp only [step] <;> (try split_ifs) <;>
    refine ⟨?_, ?_, ?_⟩ <;>
    simp_all [DroneState.begin_side, apply_ite] <;>
    first
      | linarith
      | (intro h; linarith)
      | (constructor <;> intro h <;> linarith)

/-! ## A concrete reachable run (defaults 20 x 10 x 8, initial yaw 0)

A run of the state machine on the default plan, with sensor inputs chosen
so that each tick either reaches the target altitude, completes the settle
time, completes a side in one strafe, or completes a turn exactly.  It
passes through every phase up to `LAND` and witnesses the reachable-state
claims. -/

lemma normalize_angle_zero : normalize_angle 0 = 0 :=
  normalize_angle_eq_self 0 (by linarith [Real.pi_pos]) (by linarith [Real.pi_pos])

/-- The default configuration (config file absent). -/
noncomputable def cfgD : Config := load_config none

/-- Value of `side_distances` for the default configuration: `[20, 10, 20, 10]`. -/
noncomputable def sidesD : List ℝ := side_distances cfgD

noncomputable def inTick1 : SensorInput := ⟨2, 4, (0, 0), 0⟩
noncomputable def inTick2 : SensorInput := ⟨6, 4, (0, 0), 0⟩
noncomputable def inTick3 : SensorInput := ⟨7, 4, (0, -20), 0⟩
noncomputable def inTick4 : SensorInput := ⟨8, 4, (0, -20), Real.pi / 2⟩
noncomputable def inTick5 : SensorInput := ⟨9, 4, (10, -20), Real.pi / 2⟩
noncomputable def inTick6 : SensorInput := ⟨10, 4, (10, -20), Real.pi⟩
noncomputable def inTick7 : SensorInput := ⟨11, 4, (10, 0), Real.pi⟩
noncomputable def inTick8 : SensorInput := ⟨12, 4, (10, 0), Real.pi + Real.pi / 2⟩
noncomputable def inTick9 : SensorInput := ⟨13, 4, (0, 0), Real.pi + Real.pi / 2⟩

noncomputable def trace0 : DroneState :=
  ⟨4, FlightState.TAKEOFF, none, 0, 0, 0, 0, none, [], 0, 0⟩
noncomputable def trace1 : DroneState :=
  ⟨4, FlightState.STABILIZE, none, 0, 0, 0, 0, some 2, [], 0, 0⟩
noncomputable def trace2 : DroneState :=
  ⟨4, FlightState.SIDE_1, some (0, 0), 0, 20, 0, 0, some 2, [5, 10, 15, 20], 0, 0⟩
noncomputable def trace3 : DroneState :=
  ⟨4, FlightState.TURN_1, some (0, 0), Real.pi / 2, 20, 0, Real.pi / 2, some 2,
    [5, 10, 15, 20], 1, 1⟩

lemma trace0_eq : initState cfgD 0 = trace0 := by
  unfold initState trace0 cfgD load_config initial_target_altitude
  simp
  norm_num

lemma step_trace0 : step sidesD trace0 inTick1 = trace1 := by
  unfold step trace0 inTick1 trace1
  norm_num

lemma step_trace1 : step sidesD trace1 inTick2 = trace2 := by
  unfold step trace1 inTick2 trace2 sidesD cfgD side_distances load_config
  norm_num [DroneState.begin_side, List.range_succ]

lemma step_trace2 : step sidesD trace2 inTick3 = trace3 := by
  unfold step trace2 inTick3 trace3
  norm_num [distance_traveled, decompose_displacement, Real.cos_zero,
    Real.sin_zero]

noncomputable def trace4 : DroneState :=
  ⟨4, FlightState.SIDE_2, some (0, -20), Real.pi / 2, 10, 1, Real.pi / 2, some 2,
    [2.5, 5, 7.5, 10], 0, 1⟩
noncomputable def trace5 : DroneState :=
  ⟨4, FlightState.TURN_2, some (0, -20), Real.pi, 10, 1, Real.pi, some 2,
    [2.5, 5, 7.5, 10], 1, 2⟩
noncomputable def trace6 : DroneState :=
  ⟨4, FlightState.SIDE_3, some (10, -20), Real.pi, 20, 2, Real.pi, some 2,
    [5, 10, 15, 20], 0, 2⟩
noncomputable def trace7 : DroneState :=
  ⟨4, FlightState.TURN_3, some (10, -20), Real.pi + Real.pi / 2, 20, 2,
    Real.pi + Real.pi / 2, some 2, [5, 10, 15, 20], 1, 3⟩
noncomputable def trace8 : DroneState :=
  ⟨4, FlightState.SIDE_4, some (10, 0), Real.pi + Real.pi / 2, 10, 3,
    Real.pi + Real.pi / 2, some 2, [2.5, 5, 7.5, 10], 0, 3⟩
noncomputable def trace9 : DroneState :=
  ⟨4, FlightState.LAND, some (10, 0), Real.pi + Real.pi / 2, 10, 3,
    Real.pi + Real.pi / 2, some 2, [2.5, 5, 7.5, 10], 1, 4⟩

lemma step_trace3 : step sidesD trace3 inTick4 = trace4 := by
  unfold step trace3 inTick4 trace4 sidesD cfgD side_distances load_config
  norm_num [sub_self, normalize_angle_zero, DroneState.begin_side,
    List.range_succ]

lemma step_trace4 : step sidesD trace4 inTick5 = trace5 := by
  unfold step trace4 inTick5 trace5
  norm_num [distance_traveled, decompose_displacement, Real.cos_pi_div_two,
    Real.sin_pi_div_two]

lemma step_trace5 : step sidesD trace5 inTick6 = trace6 := by
  unfold step trace5 inTick6 trace6 sidesD cfgD side_distances load_config
  norm_num [sub_self, normalize_angle_zero, DroneState.begin_side,
    List.range_succ]

lemma step_trace6 : step sidesD trace6 inTick7 = trace7 := by
  unfold step trace6 inTick7 trace7
  norm_num [distance_traveled, decompose_displacement, Real.cos_pi,
    Real.sin_pi]

lemma step_trace7 : step sidesD trace7 inTick8 = trace8 := by
  unfold step trace7 inTick8 trace8 sidesD cfgD side_distances load_config
  norm_num [sub_self, normalize_angle_zero, DroneState.begin_side,
    List.range_succ]

lemma step_trace8 : step sidesD trace8 inTick9 = trace9 := by
  unfold step trace8 inTick9 trace9
  norm_num [distance_traveled, decompose_displacement, Real.cos_add,
    Real.sin_add, Real.cos_pi, Real.sin_pi, Real.cos_pi_div_two,
    Real.sin_pi_div_two]

lemma trace3_reachable : Reachable cfgD 0 trace3 := by
  have h0 : Reachable cfgD 0 trace0 := trace0_eq ▸ Reachable.init
  have h1 : Reachable cfgD 0 trace1 := step_trace0 ▸ Reachable.next inTick1 h0
  have h2 : Reachable cfgD 0 trace2 := step_trace1 ▸ Reachable.next inTick2 h1
  exact step_trace2 ▸ Reachable.next inTick3 h2

lemma trace8_reachable : Reachable cfgD 0 trace8 := by
  have h3 := trace3_reachable
  have h4 : Reachable cfgD 0 trace4 := step_trace3 ▸ Reachable.next inTick4 h3
  have h5 : Reachable cfgD 0 trace5 := step_trace4 ▸ Reachable.next inTick5 h4
  have h6 : Reachable cfgD 0 trace6 := step_trace5 ▸ Reachable.next inTick6 h5
  have h7 : Reachable cfgD 0 trace7 := step_trace6 ▸ Reachable.next inTick7 h6
  exact step_trace7 ▸ Reachable.next inTick8 h7

/-- C5 fails on the code: `state_start_pos` is never cleared when a `SIDE`
phase is left, so "defined only in `Side` phases" is violated — the
reachable state `trace3` is in `TURN_1` and still carries the side origin
recorded when `SIDE_1` began. -/
theorem side_origin_survives_into_turn :
    Reachable cfgD 0 trace3
    ∧ trace3.state = FlightState.TURN_1
    ∧ trace3.state_start_pos ≠ none :=
  ⟨trace3_reachable, rfl, by simp [trace3]⟩

/-- C5 amended: in every reachable state of the control loop,
`state_start_pos` is defined whenever the current phase is one of the
`Side` phases; the converse fails — once set by the first `begin_side` it
persists through the `Turn`, `Land` and `Done` phases. -/
theorem side_origin_defined_in_side (cfg : Config) (y0 : ℝ) (s : DroneState)
    (h : Reachable cfg y0 s) :
    isSide s.state = true → s.state_start_pos ≠ none := by
  induction h with
  | init => simp [initState, isSide]
  | next inp hs ih =>
    rename_i s
    obtain ⟨ta, st, sp, ty, cs, si, ay, st0, cd, it, ic⟩ := s
    cases st <;>
      simp only [step, isSide] at * <;>
      (try split_ifs) <;>
      simp_all [isSide, DroneState.begin_side, apply_ite]

/-- C5 amended witness: the reachable state `trace2` is in `SIDE_1` and
its side origin is defined. -/
theorem side_origin_defined_in_side_witness :
    trace2.state_start_pos ≠ none :=
  side_origin_defined_in_side cfgD 0 trace2
    (by
      have h0 : Reachable cfgD 0 trace0 := trace0_eq ▸ Reachable.init
      have h1 : Reachable cfgD 0 trace1 :=
        step_trace0 ▸ Reachable.next inTick1 h0
      exact step_trace1 ▸ Reachable.next inTick2 h1)
    rfl

/-- C10: in every reachable state, `images_taken_this_side ≤ 4`, and in
every `Side` phase `capture_distances` has exactly 4 elements — so
whenever the capture branch's short-circuit guard
`images_taken_this_side < IMAGES_PER_SIDE` holds, the list access
`capture_distances[images_taken_this_side]` is in bounds and the indexing
error branch is unreachable. -/
theorem capture_index_in_bounds (cfg : Config) (y0 : ℝ) (s : DroneState)
    (h : Reachable cfg y0 s) :
    s.images_taken_this_side ≤ 4
    ∧ (isSide s.state = true → s.capture_distances.length = 4) := by
  induction h with
  | init => simp [initState, isSide]
  | next inp hs ih =>
    rename_i s
    obtain ⟨ta, st, sp, ty, cs, si, ay, st0, cd, it, ic⟩ := s
    obtain ⟨ih1, ih2⟩ := ih
    cases st <;>
      simp only [step, isSide] at * <;>
      (try split_ifs) <;>
      simp_all [isSide, DroneState.begin_side, apply_ite] <;>
      first
        | omega
        | simp [Function.comp, List.range_succ]

/-- C10 witness: the reachable `SIDE_1` state `trace2` satisfies the
bound and has a 4-element threshold list. -/
theorem capture_index_in_bounds_witness :
    trace2.images_taken_this_side ≤ 4
    ∧ trace2.capture_distances.length = 4 := by
  have h0 : Reachable cfgD 0 trace0 := trace0_eq ▸ Reachable.init
  have h1 : Reachable cfgD 0 trace1 :=
    step_trace0 ▸ Reachable.next inTick1 h0
  have h2 : Reachable cfgD 0 trace2 :=
    step_trace1 ▸ Reachable.next inTick2 h1
  have h := capture_index_in_bounds cfgD 0 trace2 h2
  exact ⟨h.1, h.2 rfl⟩

/-- C9 fails on the code at side 4: in the reachable state `trace8`
(`SIDE_4`, commanded yaw `pi + pi/2`), the tick `inTick9` completes the
side (distance 10 reached), yet the step transitions directly to `LAND`
without increasing `accumulated_yaw` by `pi/2`. -/
theorem side4_completion_keeps_yaw :
    Reachable cfgD 0 trace8
    ∧ trace8.state = FlightState.SIDE_4
    ∧ distance_traveled trace8 inTick9 ≥ trace8.current_side_distance
    ∧ (step sidesD trace8 inTick9).accumulated_yaw ≠
        trace8.accumulated_yaw + Real.pi / 2 := by
  refine ⟨trace8_reachable, rfl, ?_, ?_⟩
  · unfold trace8 inTick9
    norm_num [distance_traveled, decompose_displacement, Real.cos_add,
      Real.sin_add, Real.cos_pi, Real.sin_pi, Real.cos_pi_div_two,
      Real.sin_pi_div_two]
  · rw [step_trace8]
    unfold trace8 trace9
    simp only
    intro h
    have := Real.pi_pos
    linarith
